import Mathlib

/-!
Verification development for the BlueSky MCP server repository.

The repository contains two iterations of the same server:
* `src/bluesky_mcp/server.py` — the atproto-SDK iteration: a `BlueSkyClient`
  session manager with a 3-attempt login retry loop (`ensure_client`), a
  decorator `handle_api_errors` that classifies exceptions and retries the
  whole handler once on `TokenExpiredError`, a `validate_limit` normalizer,
  and a dispatcher `handle_call_tool` routing eight tool names.
* `src/alpha_vantage_mcp/server.py` — the httpx iteration: a `BlueSkySession`
  holding `jwt`/`refresh_jwt`/`did`, `ensure_auth`, and a total request
  executor `make_bluesky_request` that maps every failure to a string.

All definitions below are shallow embeddings of those functions: external
effects (login network calls, data network calls, HTTP responses) are drawn
from explicit "world" parameters, and the observable result of each Python
function (returned value, raised-exception kind, network-call counts,
sleep delays, mutated session fields) is returned explicitly.
-/

namespace BlueSky

/-! ## Constants from `bluesky_mcp/server.py` -/

/-- `MAX_RETRIES = 3` (server.py line 30). -/
def MAX_RETRIES : Nat := 3

/-- `RETRY_DELAY = 1` second (server.py line 31). -/
def RETRY_DELAY : Nat := 1

/-- `auth_expiry = timedelta(hours=1)` (server.py line 63), in seconds. -/
def authExpirySecs : Nat := 3600

/-! ## Login attempts (`BlueSkyClient.ensure_client`, lines 71-95)

One login network call either succeeds, raises `AuthenticationError`
(which the code also raises itself when `login` returns a falsy profile),
raises the module's own `ConnectionError` class, or raises any other
exception (e.g. a raw transport error from the SDK, which is *not* an
instance of the module-local `ConnectionError`). -/

inductive LoginOutcome
  | ok
  | authErr
  | connErr
  | otherErr
deriving DecidableEq

/-- The loop `for attempt in range(MAX_RETRIES)` catches exactly
`(AuthenticationError, ConnectionError)` (line 88). -/
def retryable : LoginOutcome → Bool
  | .authErr => true
  | .connErr => true
  | _ => false

/-- Observable behaviour of one `ensure_client` call: how many login
network calls it made, which sleeps it performed (in seconds, in order),
and whether it ended authenticated (`ok = true`) or raised
(`ok = false`; the outer handler at line 93-95 wraps every failure as
`ConnectionError` before it propagates). -/
structure EnsureRes where
  attempts : Nat
  delays : List Nat
  ok : Bool
deriving DecidableEq

/-- Body of the retry loop of `ensure_client`, from loop iteration `a`
(0-based), drawing the outcome of the k-th login network call of the whole
run from `login (idx)` where `idx` counts all login calls so far in the
process. `fuel` is the number of loop iterations left
(`MAX_RETRIES - a`); the `fuel = 0` guard inside mirrors
`if attempt == MAX_RETRIES - 1: raise` (line 89-90), and
`RETRY_DELAY * (a+1)` mirrors `asyncio.sleep(RETRY_DELAY * (attempt + 1))`
(line 92). A non-retryable exception leaves the loop at once. -/
def ensureLoop (login : Nat → LoginOutcome) : Nat → Nat → Nat → EnsureRes
  | _, _, 0 => ⟨0, [], false⟩
  | idx, a, fuel+1 =>
    match login idx with
    | .ok => ⟨1, [], true⟩
    | .otherErr => ⟨1, [], false⟩
    | _ =>
      if fuel = 0 then ⟨1, [], false⟩
      else
        let r := ensureLoop login (idx+1) (a+1) fuel
        ⟨r.attempts + 1, RETRY_DELAY * (a+1) :: r.delays, r.ok⟩

/-- `ensure_client`'s authentication path: run the retry loop from the
`start`-th login call of the process. -/
def ensureClient (login : Nat → LoginOutcome) (start : Nat) : EnsureRes :=
  ensureLoop login start 0 MAX_RETRIES

/-! ## The freshness cache of `BlueSkyClient` (lines 59-74) -/

/-- `self.client` presence and `self.last_auth` timestamp (seconds). -/
structure ClientState where
  hasClient : Bool
  lastAuth : Option Nat
deriving DecidableEq

/-- `_should_refresh_auth` (lines 65-69):
no previous auth, or it is older than the expiry window (strict `>`). -/
def shouldRefreshAuth (lastAuth : Option Nat) (now : Nat) : Bool :=
  match lastAuth with
  | none => true
  | some t => decide (authExpirySecs < now - t)

/-- `ensure_client` (lines 71-95) on a given client state at time `now`:
logs in (via the retry loop) iff `not self.client or
self._should_refresh_auth()`; on success records `last_auth = now`;
otherwise performs no network call at all. Returns the new state and
the observable login behaviour. -/
def ensureClientOn (st : ClientState) (now : Nat) (login : Nat → LoginOutcome)
    (start : Nat) : ClientState × EnsureRes :=
  if !st.hasClient || shouldRefreshAuth st.lastAuth now then
    let r := ensureClient login start
    (⟨true, if r.ok then some now else st.lastAuth⟩, r)
  else
    (st, ⟨0, [], true⟩)

/-! ## Tool dispatcher (`handle_call_tool`, lines 307-399) and the
`handle_api_errors` decorator (lines 97-138) of `bluesky_mcp/server.py` -/

/-- Exception classes that can propagate out of the undecorated handler. -/
inductive ExKind
  | tokenExpired
  | rateLimit
  | authError
  | serverError
  | atproto
  | connectionError
  | other
deriving DecidableEq

/-- Outcome of one data network call (`asyncio.to_thread(... api call ...)`). -/
inductive DataOutcome
  | ok
  | tokenExpired
  | rateLimited
  | authError
  | serverError
  | atprotoError
  | otherError
deriving DecidableEq

/-- Exception raised by a data call, if any. -/
def dataExc : DataOutcome → Option ExKind
  | .ok => none
  | .tokenExpired => some .tokenExpired
  | .rateLimited => some .rateLimit
  | .authError => some .authError
  | .serverError => some .serverError
  | .atprotoError => some .atproto
  | .otherError => some .other

/-- The `TextContent` blocks the handler can return (one per invocation). -/
inductive Rendered
  | success
  | configError
  | validationError (msg : String)
  | rateLimitText
  | authFailedText
  | serverErrorText
  | apiErrorText
  | unexpectedText
deriving DecidableEq

/-- Result of one run of the undecorated `handle_call_tool`:
either it returned a rendered block, or an exception escaped it. -/
inductive InnerOut
  | returned (r : Rendered)
  | raised (e : ExKind)
deriving DecidableEq

/-- The external behaviour a whole process run is exposed to: whether both
environment variables are set, and the outcome of the k-th login call and
of the k-th data call made by the process. -/
structure World where
  configOk : Bool
  login : Nat → LoginOutcome
  data : Nat → DataOutcome

/-- Python truthiness of an optional string: `None` and `""` are falsy. -/
def optTruthy : Option String → Bool
  | none => false
  | some s => !s.isEmpty

/-- The argument bag of an invocation: `arguments.get("query")`,
`arguments.get("limit")`, `arguments.get("cursor")`. -/
structure Args where
  query : Option String
  limit : Option Int
  cursor : Option String
deriving DecidableEq

/-- The if/elif chain on the tool name (lines 325-394): eight known tools,
of which `bluesky_search_posts` and `bluesky_search_profiles` additionally
require a query; everything else is unknown. -/
inductive ToolKind
  | plain
  | search
  | unknown
deriving DecidableEq

/-- Classification of a tool name by the dispatch chain. -/
def toolKind (name : String) : ToolKind :=
  if name = "bluesky_get_profile" then .plain
  else if name = "bluesky_get_posts" then .plain
  else if name = "bluesky_search_posts" then .search
  else if name = "bluesky_get_follows" then .plain
  else if name = "bluesky_get_followers" then .plain
  else if name = "bluesky_get_liked_posts" then .plain
  else if name = "bluesky_get_personal_feed" then .plain
  else if name = "bluesky_search_profiles" then .search
  else .unknown

/-- One run of the undecorated `handle_call_tool` body, with `li`/`di` the
numbers of login/data network calls the process has already made (used to
index into the world); returns the outcome and the updated counters.

Order of operations, as in the source: `validate_environment` (line 317,
`ConfigurationError` is rendered, not raised); construct a **fresh**
`BlueSkyClient` and `ensure_client` it (lines 321-322, before any look at
the tool name; a failure there raises the module's `ConnectionError`);
then the name chain; search tools check their query before calling out
(lines 340-342, `ValidationError` is caught at line 398 and rendered);
known tools normalize `limit` via `validate_limit` and make exactly one
data call; an unknown name raises `ValidationError` (line 394), also
rendered. Exceptions from the data call are not caught here. -/
def runInner (w : World) (now : Nat) (name : String) (args : Args)
    (li di : Nat) : InnerOut × Nat × Nat :=
  if w.configOk = false then
    (.returned .configError, li, di)
  else
    let er := (ensureClientOn ⟨false, none⟩ now w.login li).2
    if er.ok = false then
      (.raised .connectionError, li + er.attempts, di)
    else
      match toolKind name with
      | .unknown =>
          (.returned (.validationError (String.append "Unknown tool: " name)),
           li + er.attempts, di)
      | .search =>
          if optTruthy args.query = false then
            (.returned (.validationError "Missing required argument: query"),
             li + er.attempts, di)
          else
            match dataExc (w.data di) with
            | none => (.returned .success, li + er.attempts, di + 1)
            | some e => (.raised e, li + er.attempts, di + 1)
      | .plain =>
          match dataExc (w.data di) with
          | none => (.returned .success, li + er.attempts, di + 1)
          | some e => (.raised e, li + er.attempts, di + 1)

/-- What the decorated handler ultimately produces: a rendered block, or an
exception escaping past the decorator to the MCP framework. -/
inductive FinalOut
  | rendered (r : Rendered)
  | uncaught (e : ExKind)
deriving DecidableEq

/-- The non-retry branches of `handle_api_errors` (lines 108-137): each
classified exception kind becomes one fixed text block; anything else hits
the final `except Exception` (this includes the module's
`ConnectionError` raised by `ensure_client`). -/
def renderExc : ExKind → Rendered
  | .rateLimit => .rateLimitText
  | .authError => .authFailedText
  | .serverError => .serverErrorText
  | .atproto => .apiErrorText
  | _ => .unexpectedText

/-- `handle_api_errors` around one handler run (lines 100-107): on
`TokenExpiredError` it would call `args[0].ensure_client()` — but
`args[0]` is the tool-name string, which has no such attribute, so no
extra login happens there — and then re-runs the handler once.  That
second run is **outside** any try/except: whatever it raises escapes
uncaught.  Every other exception from the first run is rendered. -/
def runToolFrom (w : World) (now : Nat) (name : String) (args : Args)
    (li di : Nat) : FinalOut × Nat × Nat :=
  match runInner w now name args li di with
  | (.returned r, li1, di1) => (.rendered r, li1, di1)
  | (.raised .tokenExpired, li1, di1) =>
      (match runInner w now name args li1 di1 with
       | (.returned r, li2, di2) => (.rendered r, li2, di2)
       | (.raised e, li2, di2) => (.uncaught e, li2, di2))
  | (.raised e, li1, di1) => (.rendered (renderExc e), li1, di1)

/-- One decorated tool invocation at the start of a process. -/
def runTool (w : World) (now : Nat) (name : String) (args : Args) :
    FinalOut × Nat × Nat :=
  runToolFrom w now name args 0 0

/-- Two consecutive identical invocations at times `t1`, `t2`.  No session
state survives between them: `handle_call_tool` constructs a fresh
`BlueSkyClient` each time (line 321), so only the world's call counters
carry over.  Returns both outcomes and the total login/data call counts. -/
def runTwoTools (w : World) (t1 t2 : Nat) (name : String) (args : Args) :
    FinalOut × FinalOut × Nat × Nat :=
  let r1 := runToolFrom w t1 name args 0 0
  let r2 := runToolFrom w t2 name args r1.2.1 r1.2.2
  (r1.1, r2.1, r2.2.1, r2.2.2)

/-! ## Concrete worlds and inputs used by witnesses and counterexamples -/

/-- Everything succeeds. -/
def wOk : World := ⟨true, fun _ => .ok, fun _ => .ok⟩

/-- Logins succeed; the first data call reports the token rejected, every
later one succeeds. -/
def wRejectOnce : World :=
  ⟨true, fun _ => .ok, fun k => if k = 0 then .tokenExpired else .ok⟩

/-- Logins succeed; every data call reports the token rejected. -/
def wRejectAlways : World := ⟨true, fun _ => .ok, fun _ => .tokenExpired⟩

/-- Missing environment variables. -/
def wNoConfig : World := ⟨false, fun _ => .ok, fun _ => .ok⟩

/-- An invocation with an empty argument bag. -/
def noArgs : Args := ⟨none, none, none⟩

/-- Login supply whose first attempt is a credential rejection and whose
later attempts succeed. -/
def loginAuthErrFirst : Nat → LoginOutcome :=
  fun k => if k = 0 then .authErr else .ok

/-- Login supply where every attempt succeeds. -/
def loginAllOk : Nat → LoginOutcome := fun _ => .ok

/-! ## `validate_limit` (`bluesky_mcp/server.py`, lines 140-150) -/

/-- A Python value as it can arrive in `arguments["limit"]`: an integer,
a string, or anything else (list, dict, ...). -/
inductive PyVal
  | int (n : Int)
  | str (s : String)
  | other
deriving DecidableEq

/-- Accumulate a decimal digit string into a number; `none` as soon as a
non-digit appears. -/
def digitsToNat : List Char → Nat → Option Nat
  | [], acc => some acc
  | c :: rest, acc =>
    if c.isDigit then digitsToNat rest (acc * 10 + (c.toNat - 48)) else none

/-- Decimal integer parse with optional minus sign; `none` when the string
is empty, a bare sign, or contains a non-digit.  This is the success and
`ValueError` behaviour of Python `int` on a string. -/
def pyParseInt (s : String) : Option Int :=
  match s.toList with
  | [] => none
  | '-' :: rest =>
    match rest with
    | [] => none
    | _ => (digitsToNat rest 0).map (fun n => -(n : Int))
  | cs => (digitsToNat cs 0).map (fun n => (n : Int))

/-- Python `int(x)`: an integer passes through; a string is parsed as a
(possibly signed) decimal integer, raising `ValueError` when it does not
parse; any other type raises `TypeError`.  `none` means the conversion
raised. -/
def pyToInt : PyVal → Option Int
  | .int n => some n
  | .str s => pyParseInt s
  | .other => none

/-- `validate_limit(limit, default=50, max_limit=100)`: `None` yields the
default; a failed `int()` conversion is caught (`ValueError`/`TypeError`)
and yields the default; a converted value below 1 yields the default;
otherwise `min(limit, max_limit)`. -/
def validateLimit (limit : Option PyVal) (default maxLimit : Int) : Int :=
  match limit with
  | none => default
  | some v =>
    match pyToInt v with
    | none => default
    | some n => if n < 1 then default else min n maxLimit

/-! ## The httpx iteration: `alpha_vantage_mcp/server.py`

`BlueSkySession` (lines 20-64) and `make_bluesky_request` (lines 216-246).
-/

/-- The mutable fields of `BlueSkySession`: `self.jwt`,
`self.refresh_jwt`, `self.did`, and whether an `Authorization` header has
been installed into `self.headers`. -/
structure Session where
  jwt : Option String
  refreshJwt : Option String
  did : Option String
  hasAuthHeader : Bool
deriving DecidableEq

/-- `BlueSkySession.__init__`: everything absent. -/
def Session.init : Session := ⟨none, none, none, false⟩

/-- The outcome of the `createSession` HTTP call inside `ensure_auth`:
a 400 (explicitly checked, line 44), any other error status
(`raise_for_status`, line 50), or a parsed body whose `accessJwt`,
`refreshJwt` and `did` keys are each possibly absent (`dict.get`,
lines 53-55). -/
inductive LoginHttp
  | err400
  | errOther
  | ok (accessJwt refreshJwt did : Option String)
deriving DecidableEq

/-- Result of `ensure_auth`: it either returns normally or raises, and in
both cases the session object it mutated survives. -/
inductive AuthRes
  | ok (s : Session)
  | raised (s : Session)
deriving DecidableEq

/-- `ensure_auth` (lines 31-64): skip everything when `self.jwt` is truthy;
otherwise call `createSession`.  A 400 or other HTTP error raises before
any field is touched.  On a parsed body the three fields are assigned
**first** (lines 53-55) and only then validated (line 57): a falsy
`accessJwt` or `did` raises `ValueError` with the fields already mutated.
The `Authorization` header is installed last (line 60). -/
def ensureAuth (s : Session) (r : LoginHttp) : AuthRes :=
  if optTruthy s.jwt then .ok s
  else
    match r with
    | .err400 => .raised s
    | .errOther => .raised s
    | .ok aj rj d =>
        if !optTruthy aj || !optTruthy d then .raised ⟨aj, rj, d, s.hasAuthHeader⟩
        else .ok ⟨aj, rj, d, true⟩

/-- The 401 branch of `make_bluesky_request` (line 239): `session.jwt =
None` — and nothing else. -/
def clearOnReject (s : Session) : Session :=
  ⟨none, s.refreshJwt, s.did, s.hasAuthHeader⟩

/-- The claimed session invariant: access token and account id both
present or both absent. -/
def bothOrNeither (s : Session) : Bool :=
  s.jwt.isSome == s.did.isSome

/-- What the data HTTP call inside `make_bluesky_request` can do: return a
status code with a parseable or unparseable body, time out, fail to
connect, or raise some other exception. -/
inductive HttpOutcome
  | status (code : Nat) (parses : Bool)
  | timeout
  | connectFail
  | otherExc
deriving DecidableEq

/-- What `make_bluesky_request` returns to its caller: a parsed payload
dict, or an error string.  There is no constructor for a propagated
exception — the claim under test is that none escapes. -/
inductive ReqResult
  | payload
  | errorString (s : String)
deriving DecidableEq

/-- `make_bluesky_request` (lines 216-246).  The whole body is inside
`try: ... except Exception as e: return f"Error: {str(e)}"`, so every
raise

* from `ensure_auth`,
* from the transport (timeout / connect failure / other),
* from `raise_for_status()` on a non-2xx status other than 429/401,
* from `response.json()` on an unparseable 2xx body

becomes an error string.  429 and 401 are checked before
`raise_for_status` and return fixed strings, the 401 path clearing
`session.jwt` first.  Returns the result and the session as the caller
observes it afterwards. -/
def makeBlueskyRequest (s : Session) (auth : LoginHttp) (h : HttpOutcome) :
    ReqResult × Session :=
  match ensureAuth s auth with
  | .raised s' => (.errorString "Error: authentication raised", s')
  | .ok s' =>
    match h with
    | .timeout => (.errorString "Error: request timed out", s')
    | .connectFail => (.errorString "Error: connection failed", s')
    | .otherExc => (.errorString "Error: unexpected exception", s')
    | .status code parses =>
        if code = 429 then
          (.errorString "Rate limit exceeded. Please try again later.", s')
        else if code = 401 then
          (.errorString "Authentication failed. Please try again.",
           clearOnReject s')
        else if 400 ≤ code then
          (.errorString "Error: http status error", s')
        else if parses then (.payload, s')
        else (.errorString "Error: body not json", s')

/-- A successful `createSession` body with all three fields present. -/
def goodLogin : LoginHttp :=
  .ok (some "jwt1") (some "refresh1") (some "did1")

/-- The session `ensure_auth` produces from `Session.init` and
`goodLogin`. -/
def authedSession : Session :=
  ⟨some "jwt1", some "refresh1", some "did1", true⟩

/-! ## Helper lemmas -/

/-- A truthy optional string is in particular present. -/
lemma optTruthy_isSome {o : Option String} (h : optTruthy o = true) :
    o.isSome = true := by
  cases o with
  | none => simp [optTruthy] at h
  | some s => rfl

/-- When the first login attempt of an `ensure_client` run succeeds, the
run makes exactly one login call, sleeps never, and ends authenticated. -/
lemma ensureClient_ok (login : Nat → LoginOutcome) (start : Nat)
    (h : login start = .ok) : ensureClient login start = ⟨1, [], true⟩ := by
  simp [ensureClient, MAX_RETRIES, ensureLoop, h]

/-- A fresh `BlueSkyClient` (as constructed at line 321) always takes the
login branch of `ensure_client`, whatever the current time. -/
lemma ensureClientOn_fresh (now : Nat) (login : Nat → LoginOutcome)
    (start : Nat) :
    (ensureClientOn ⟨false, none⟩ now login start).2 = ensureClient login start :=
  rfl

/-- A client instance that did authenticate within the freshness window
would skip login entirely — the cache logic itself works; it is only ever
applied to fresh instances by `handle_call_tool`. -/
lemma ensureClientOn_cached (t now : Nat) (login : Nat → LoginOutcome)
    (start : Nat) (h : ¬ authExpirySecs < now - t) :
    ensureClientOn ⟨true, some t⟩ now login start =
      (⟨true, some t⟩, ⟨0, [], true⟩) := by
  simp [ensureClientOn, shouldRefreshAuth, h]

/-! ## Claim C3 -/

/-- C3 counterexample: a credential rejection (`AuthenticationError`) on
the first login attempt is *retried* — the run makes a second login call
and succeeds — contradicting the claim that credential-rejection failures
are never retried and propagate immediately on the first attempt. -/
theorem c3_counterexample :
    (ensureClient loginAuthErrFirst 0).attempts = 2 ∧
    (ensureClient loginAuthErrFirst 0).ok = true := ⟨rfl, rfl⟩

/-- C3 (amended): during authentication, failures raised as
`AuthenticationError` (credential rejection, or a falsy login profile) or
as the module's own `ConnectionError` class are retried up to 3 attempts,
sleeping `RETRY_DELAY * attempt_number` seconds after failed attempts 1
and 2; any other exception (including raw transport errors from the SDK,
which are not instances of the module-local `ConnectionError`) aborts the
loop at once; after the third classified failure the error propagates
(wrapped as `ConnectionError`).  In particular credential rejection is
retried, not propagated on the first attempt. -/
theorem c3_amended (login : Nat → LoginOutcome) :
    (login 0 = .ok → ensureClient login 0 = ⟨1, [], true⟩) ∧
    (login 0 = .otherErr → ensureClient login 0 = ⟨1, [], false⟩) ∧
    (retryable (login 0) = true → login 1 = .ok →
      ensureClient login 0 = ⟨2, [RETRY_DELAY * 1], true⟩) ∧
    (retryable (login 0) = true → login 1 = .otherErr →
      ensureClient login 0 = ⟨2, [RETRY_DELAY * 1], false⟩) ∧
    (retryable (login 0) = true → retryable (login 1) = true →
      login 2 = .ok →
      ensureClient login 0 = ⟨3, [RETRY_DELAY * 1, RETRY_DELAY * 2], true⟩) ∧
    (retryable (login 0) = true → retryable (login 1) = true →
      login 2 ≠ .ok →
      ensureClient login 0 = ⟨3, [RETRY_DELAY * 1, RETRY_DELAY * 2], false⟩) := by
  refine ⟨?_, ?_, ?_, ?_, ?_, ?_⟩
  · intro h0
    simp [ensureClient, MAX_RETRIES, ensureLoop, h0]
  · intro h0
    simp [ensureClient, MAX_RETRIES, ensureLoop, h0]
  · intro h0 h1
    cases hA : login 0 <;> rw [hA] at h0 <;> simp [retryable] at h0 <;>
      simp [ensureClient, MAX_RETRIES, ensureLoop, hA, h1]
  · intro h0 h1
    cases hA : login 0 <;> rw [hA] at h0 <;> simp [retryable] at h0 <;>
      simp [ensureClient, MAX_RETRIES, ensureLoop, hA, h1]
  · intro h0 h1 h2
    cases hA : login 0 <;> rw [hA] at h0 <;> simp [retryable] at h0 <;>
      cases hB : login 1 <;> rw [hB] at h1 <;> simp [retryable] at h1 <;>
        simp [ensureClient, MAX_RETRIES, ensureLoop, hA, hB, h2]
  · intro h0 h1 h2
    cases hA : login 0 <;> rw [hA] at h0 <;> simp [retryable] at h0 <;>
      cases hB : login 1 <;> rw [hB] at h1 <;> simp [retryable] at h1 <;>
        cases hC : login 2 <;> try exact absurd hC h2
    all_goals simp [ensureClient, MAX_RETRIES, ensureLoop, hA, hB, hC]

/-- C3 witness: the amended statement applied to the concrete supply whose
first attempt is a credential rejection and whose second succeeds. -/
theorem c3_amended_witness :
    ensureClient loginAuthErrFirst 0 = ⟨2, [RETRY_DELAY * 1], true⟩ :=
  (c3_amended loginAuthErrFirst).2.2.1 rfl rfl

/-! ## Claim C5 -/

/-- C5: `validate_limit` with the documented maximum of 100 — an absent
value, a value `int()` cannot convert (non-numeric), or a converted value
below 1 (zero or negative) all resolve to the tool's default; a converted
value above 100 clamps to 100; a converted value in `[1, 100]` passes
through unchanged.  The function is total (the `ValueError`/`TypeError`
branch is the `pyToInt x = none` case), so normalization never raises. -/
theorem c5_limit_normalization (v : Option PyVal) (d : Int) :
    (v = none → validateLimit v d 100 = d) ∧
    (∀ x, v = some x → pyToInt x = none → validateLimit v d 100 = d) ∧
    (∀ x n, v = some x → pyToInt x = some n → n < 1 →
      validateLimit v d 100 = d) ∧
    (∀ x n, v = some x → pyToInt x = some n → 100 < n →
      validateLimit v d 100 = 100) ∧
    (∀ x n, v = some x → pyToInt x = some n → 1 ≤ n → n ≤ 100 →
      validateLimit v d 100 = n) := by
  refine ⟨?_, ?_, ?_, ?_, ?_⟩
  · rintro rfl; rfl
  · rintro x rfl h; simp [validateLimit, h]
  · rintro x n rfl h hn; simp [validateLimit, h, hn]
  · rintro x n rfl h hn
    have hn' : ¬ n < 1 := by omega
    simp [validateLimit, h, hn']
    omega
  · rintro x n rfl h h1 h100
    have hn' : ¬ n < 1 := by omega
    simp [validateLimit, h, hn']
    omega

/-- C5 witness: the clamp conjunct at the concrete over-limit input 150
with default 50, and the default conjunct at the non-numeric input. -/
theorem c5_witness :
    validateLimit (some (.int 150)) 50 100 = 100 ∧
    validateLimit (some (.str "abc")) 25 100 = 25 :=
  ⟨(c5_limit_normalization (some (.int 150)) 50).2.2.2.1 (.int 150) 150
      rfl rfl (by decide),
   (c5_limit_normalization (some (.str "abc")) 25).2.1 (.str "abc")
      rfl (by decide)⟩

/-! ## Claim C9 -/

/-- C9 counterexample: log in successfully from a fresh session (both
fields populated), then let a data call come back 401.  The 401 branch of
`make_bluesky_request` clears only `session.jwt`, so the session the
caller holds afterwards has the account id present and the access token
absent — a partially-populated session, refuting the invariant. -/
theorem c9_counterexample :
    ensureAuth Session.init goodLogin = .ok authedSession ∧
    (makeBlueskyRequest Session.init goodLogin (.status 401 true)).2 =
      ⟨none, some "refresh1", some "did1", true⟩ ∧
    bothOrNeither
      (makeBlueskyRequest Session.init goodLogin (.status 401 true)).2 =
      false :=
  ⟨rfl, rfl, rfl⟩

/-- C9 (amended): the both-present-or-both-absent invariant holds for the
freshly constructed session and is preserved whenever `ensure_auth`
returns normally; but the clear-on-reject operation (the 401 branch)
clears only the access token, so on any session with both fields present
it produces a session with the account id present and the token absent —
the invariant does not survive clear-on-reject. -/
theorem c9_amended :
    bothOrNeither Session.init = true ∧
    (∀ s r s', ensureAuth s r = .ok s' → bothOrNeither s = true →
      bothOrNeither s' = true) ∧
    (∀ s : Session, s.jwt.isSome = true → s.did.isSome = true →
      bothOrNeither (clearOnReject s) = false) := by
  refine ⟨rfl, ?_, ?_⟩
  · intro s r s' hok hinv
    unfold ensureAuth at hok
    split at hok
    · cases hok
      exact hinv
    · cases r with
      | err400 => simp at hok
      | errOther => simp at hok
      | ok aj rj d =>
        simp only [] at hok
        split at hok
        · simp at hok
        case _ hcond =>
          cases hok
          have haj : optTruthy aj = true := by
            cases hja : optTruthy aj <;> simp [hja] at hcond ⊢
          have hd : optTruthy d = true := by
            cases hjd : optTruthy d <;> simp [hjd] at hcond ⊢
          simp [bothOrNeither, optTruthy_isSome haj, optTruthy_isSome hd]
  · intro s h1 h2
    simp [bothOrNeither, clearOnReject, h2]

/-- C9 witness: the clear-on-reject conjunct of the amended statement at
the concrete authenticated session. -/
theorem c9_amended_witness :
    bothOrNeither (clearOnReject authedSession) = false :=
  c9_amended.2.2 authedSession rfl rfl

/-! ## Claim C10 -/

/-- C10: `make_bluesky_request` is total over its outcome space — for
every starting session, every authentication outcome and every HTTP
outcome of the data call (timeout, connection failure, any status code
with parseable or unparseable body, any other exception) it returns a
value, either the parsed payload or an error string; the model's return
type has no constructor for a propagated exception, and every branch of
the definition is shown to produce one of the two result forms. -/
theorem c10_request_total (s : Session) (auth : LoginHttp)
    (ho : HttpOutcome) :
    (∃ m, (makeBlueskyRequest s auth ho).1 = .errorString m) ∨
    (makeBlueskyRequest s auth ho).1 = .payload := by
  unfold makeBlueskyRequest
  cases hA : ensureAuth s auth with
  | raised s' => exact Or.inl ⟨_, rfl⟩
  | ok s' =>
    cases ho with
    | timeout => exact Or.inl ⟨_, rfl⟩
    | connectFail => exact Or.inl ⟨_, rfl⟩
    | otherExc => exact Or.inl ⟨_, rfl⟩
    | status code parses =>
      by_cases h429 : code = 429
      · simp [h429]
      · by_cases h401 : code = 401
        · simp [h429, h401]
        · by_cases herr : 400 ≤ code
          · simp [h429, h401, herr]
          · cases parses <;> simp [h429, h401, herr]

/-! ## Claims C1, C2, C4, C6, C7, C8 — the decorated dispatcher -/

/-- C1: for a tool invocation (any known tool, with its query present when
it is a search tool) whose first data call reports the token rejected
(`TokenExpiredError`) and whose retried data call succeeds, while
configuration is set and logins succeed, the decorated dispatcher returns
the rendered success outcome; the run makes exactly 2 login calls and
exactly 2 data calls in total — the first pair before the rejection, so
exactly one re-authentication and exactly one retried data call occur
after it. -/
theorem c1_token_rejection_recovery (w : World) (now : Nat) (name : String)
    (args : Args) (hc : w.configOk = true) (hl : ∀ k, w.login k = .ok)
    (h0 : w.data 0 = .tokenExpired) (h1 : w.data 1 = .ok)
    (hk : toolKind name = .plain ∨
      (toolKind name = .search ∧ optTruthy args.query = true)) :
    runTool w now name args = (.rendered .success, 2, 2) := by
  have e0 : (ensureClientOn ⟨false, none⟩ now w.login 0).2 = ⟨1, [], true⟩ := by
    rw [ensureClientOn_fresh]; exact ensureClient_ok _ _ (hl 0)
  have e1 : (ensureClientOn ⟨false, none⟩ now w.login 1).2 = ⟨1, [], true⟩ := by
    rw [ensureClientOn_fresh]; exact ensureClient_ok _ _ (hl 1)
  rcases hk with hk | ⟨hk, hq⟩
  · simp [runTool, runToolFrom, runInner, hc, e0, e1, hk, h0, h1, dataExc]
  · simp [runTool, runToolFrom, runInner, hc, e0, e1, hk, h0, h1, dataExc, hq]

/-- C1 witness: the recovery theorem at the concrete world whose first
data call is rejected and whose second succeeds, for
`bluesky_get_profile`. -/
theorem c1_witness :
    runTool wRejectOnce 0 "bluesky_get_profile" noArgs =
      (.rendered .success, 2, 2) :=
  c1_token_rejection_recovery wRejectOnce 0 "bluesky_get_profile" noArgs
    rfl (fun _ => rfl) rfl rfl (Or.inl rfl)

/-- C2: when the remote API rejects the token on both the original and the
retried data call, the decorated dispatcher stops after exactly 2 data
calls (no third call is attempted) — but the second `TokenExpiredError`
escapes `handle_api_errors` uncaught (the retry at line 107 sits outside
any try/except), instead of being rendered as a failure outcome as the
claim and the decorator's own catch-all intend. -/
theorem c2_double_rejection_escapes_uncaught :
    runTool wRejectAlways 0 "bluesky_get_profile" noArgs =
      (.uncaught .tokenExpired, 2, 2) := rfl

/-- C4: two consecutive identical `bluesky_get_profile` invocations, at
any two times `t1 ≤ t2` (so in particular within the freshness window),
with configuration set and every network call succeeding, perform 2 login
calls in total, not 1: `handle_call_tool` constructs a fresh
`BlueSkyClient` per invocation (line 321), so the second invocation never
sees the first one's cached token. -/
theorem c4_two_calls_two_logins (t1 t2 : Nat) :
    runTwoTools wOk t1 t2 "bluesky_get_profile" noArgs =
      (.rendered .success, .rendered .success, 2, 2) := rfl

/-- C6 counterexample: invoking the unknown tool name
`bluesky_does_not_exist` in the all-success world does return the
rendered unknown-tool failure and makes no data call — but it performs 1
login network call (the dispatcher authenticates before looking at the
name), so the claim's "performs no network call" is false. -/
theorem c6_counterexample :
    runTool wOk 0 "bluesky_does_not_exist" noArgs =
      (.rendered (.validationError "Unknown tool: bluesky_does_not_exist"),
       1, 0) ∧
    (runTool wOk 0 "bluesky_does_not_exist" noArgs).2.1 ≠ 0 :=
  ⟨rfl, by decide⟩

/-- C6 (amended): for every invocation whose name is not in the tool
catalog, with configuration set and logins succeeding, dispatch returns
the rendered `Unknown tool` failure and performs no data call — but it
does perform exactly one (successful) login call first. -/
theorem c6_unknown_tool (w : World) (now : Nat) (name : String)
    (args : Args) (hc : w.configOk = true) (hl : ∀ k, w.login k = .ok)
    (hk : toolKind name = .unknown) :
    runTool w now name args =
      (.rendered (.validationError (String.append "Unknown tool: " name)),
       1, 0) := by
  have e0 : (ensureClientOn ⟨false, none⟩ now w.login 0).2 = ⟨1, [], true⟩ := by
    rw [ensureClientOn_fresh]; exact ensureClient_ok _ _ (hl 0)
  simp [runTool, runToolFrom, runInner, hc, e0, hk]

/-- C6 witness: the amended statement at the concrete unknown name. -/
theorem c6_unknown_tool_witness :
    runTool wOk 0 "bluesky_does_not_exist" noArgs =
      (.rendered (.validationError "Unknown tool: bluesky_does_not_exist"),
       1, 0) :=
  c6_unknown_tool wOk 0 "bluesky_does_not_exist" noArgs rfl (fun _ => rfl) rfl

/-- C7 counterexample: calling `bluesky_search_posts` without a query (and
`bluesky_search_profiles` with an empty query) in the all-success world
returns the rendered missing-argument failure and makes no data call —
but each performs 1 login network call first, so the claim's "performs no
network call" is false. -/
theorem c7_counterexample :
    runTool wOk 0 "bluesky_search_posts" noArgs =
      (.rendered (.validationError "Missing required argument: query"),
       1, 0) ∧
    runTool wOk 0 "bluesky_search_profiles" ⟨some "", none, none⟩ =
      (.rendered (.validationError "Missing required argument: query"),
       1, 0) ∧
    (runTool wOk 0 "bluesky_search_posts" noArgs).2.1 ≠ 0 :=
  ⟨rfl, rfl, by decide⟩

/-- C7 (amended): for every invocation of a search tool whose query is
absent or empty, with configuration set and logins succeeding, dispatch
returns the rendered `Missing required argument: query` failure and
performs no data call — but it does perform exactly one (successful)
login call first. -/
theorem c7_missing_query (w : World) (now : Nat) (name : String)
    (args : Args) (hc : w.configOk = true) (hl : ∀ k, w.login k = .ok)
    (hk : toolKind name = .search)
    (hq : args.query = none ∨ args.query = some "") :
    runTool w now name args =
      (.rendered (.validationError "Missing required argument: query"),
       1, 0) := by
  have e0 : (ensureClientOn ⟨false, none⟩ now w.login 0).2 = ⟨1, [], true⟩ := by
    rw [ensureClientOn_fresh]; exact ensureClient_ok _ _ (hl 0)
  have hq' : optTruthy args.query = false := by
    rcases hq with h | h
    · simp [h, optTruthy]
    · rw [h]; rfl
  simp [runTool, runToolFrom, runInner, hc, e0, hk, hq']

/-- C7 witness: the amended statement at `bluesky_search_posts` with no
arguments. -/
theorem c7_missing_query_witness :
    runTool wOk 0 "bluesky_search_posts" noArgs =
      (.rendered (.validationError "Missing required argument: query"),
       1, 0) :=
  c7_missing_query wOk 0 "bluesky_search_posts" noArgs rfl (fun _ => rfl)
    rfl (Or.inl rfl)

/-- C8: for every tool invocation in a world whose configuration is
missing (either required environment variable unset), the dispatcher
returns the rendered `ConfigurationError` outcome and performs zero login
calls and zero data calls: `validate_environment` is checked (and its
error rendered) before any client is built. -/
theorem c8_config_missing (w : World) (now : Nat) (name : String)
    (args : Args) (h : w.configOk = false) :
    runTool w now name args = (.rendered .configError, 0, 0) := by
  simp [runTool, runToolFrom, runInner, h]

/-- C8 witness: the configuration-missing theorem at the concrete world
with unset environment variables. -/
theorem c8_config_missing_witness :
    runTool wNoConfig 0 "bluesky_get_profile" noArgs =
      (.rendered .configError, 0, 0) :=
  c8_config_missing wNoConfig 0 "bluesky_get_profile" noArgs rfl

end BlueSky
